import Mathlib

/-!
Verification of the moments media backend against its design document.

The Rust sources are embedded shallowly: pure functions become Lean
functions, the filesystem becomes an explicit map from paths to file
contents, the index actor's loop body becomes a step function on an
explicit actor state, and the concurrency of the thumbnail cache is
modelled as an interleaving of the atomic steps each request performs.
External library behaviour (the image codec, the EXIF reader, the
resampling filter) is modelled only at the granularity the sources rely
on, as stated in each doc comment.
-/

namespace Moments

/-- Decoded in-memory image: a pixel grid. Only the pixels with
coordinates inside the width times height rectangle are meaningful. -/
structure Img where
  width : Nat
  height : Nat
  pixel : Nat → Nat → Nat

/-- Model of a raw byte buffer holding one image file: the pixel payload
together with the parse of its EXIF orientation tag (none when the tag is
absent or unreadable). Stands in for the Vec of bytes the Rust code
passes around. -/
structure Buffer where
  bytes : List Nat
  exifOrientation : Option Nat
deriving DecidableEq

/-- Modelled decoder for the external image crate (load_from_memory):
the payload is read as width, height, then row-major pixels, and a
decodable image always has nonzero dimensions, as real decoders
guarantee. The claims only depend on decodability, never on codec
internals. -/
def decode (buffer : Buffer) : Option Img :=
  match buffer.bytes with
  | w :: h :: pixels =>
    if (w != 0) && (h != 0) && (pixels.length == w * h) then
      some { width := w, height := h, pixel := fun x y => pixels.getD (y * w + x) 0 }
    else none
  | _ => none

/-- Modelled JPEG encoder (JpegEncoder::new_with_quality followed by
write_with_encoder): quality, dimensions, then the row-major pixels. The
claims only depend on the encoder being a deterministic function of the
image and the quality. -/
def encode (jpeg_image_quality : Nat) (img : Img) : List Nat :=
  jpeg_image_quality :: img.width :: img.height ::
    ((List.range img.height).map fun y =>
      (List.range img.width).map fun x => img.pixel x y).flatten

/-- Modelled from the image crate imageops: mirror the image horizontally. -/
def Img.fliph (img : Img) : Img :=
  { width := img.width, height := img.height,
    pixel := fun x y => img.pixel (img.width - 1 - x) y }

/-- Modelled from the image crate imageops: mirror the image vertically. -/
def Img.flipv (img : Img) : Img :=
  { width := img.width, height := img.height,
    pixel := fun x y => img.pixel x (img.height - 1 - y) }

/-- Modelled from the image crate imageops: rotate 90 degrees clockwise. -/
def Img.rotate90 (img : Img) : Img :=
  { width := img.height, height := img.width,
    pixel := fun x y => img.pixel y (img.height - 1 - x) }

/-- Modelled from the image crate imageops: rotate 180 degrees. -/
def Img.rotate180 (img : Img) : Img :=
  { width := img.width, height := img.height,
    pixel := fun x y => img.pixel (img.width - 1 - x) (img.height - 1 - y) }

/-- Modelled from the image crate imageops: rotate 270 degrees clockwise. -/
def Img.rotate270 (img : Img) : Img :=
  { width := img.height, height := img.width,
    pixel := fun x y => img.pixel (img.width - 1 - y) x }

/-- Rounding used by the image crate's resize dimension computation: the
f64 round (ties away from zero) of a quotient of naturals, in exact
integer arithmetic: round(a / b) = floor(a / b + 1/2) = (2a + b) / (2b)
under integer division. Yields 0 when b = 0. -/
def roundRatio (a b : Nat) : Nat := (2 * a + b) / (2 * b)

/-- Modelled from the image crate's resize_dimensions with fill = false,
the dimension computation behind DynamicImage::resize: scale both input
dimensions by the smaller of the two bound ratios nwidth / width and
nheight / height (the comparison done here by cross-multiplication),
round each scaled dimension, and clamp each to at least one pixel.
Exact arithmetic stands in for f64, and the u32 saturation branch is
omitted: it is unreachable because each rounded dimension is bounded by
the corresponding target bound. -/
def resize_dimensions (width height nwidth nheight : Nat) : Nat × Nat :=
  if nwidth * height ≤ nheight * width then
    (max (roundRatio (width * nwidth) width) 1,
      max (roundRatio (height * nwidth) width) 1)
  else
    (max (roundRatio (width * nheight) height) 1,
      max (roundRatio (height * nheight) height) 1)

/-- Modelled from DynamicImage::resize(nwidth, nheight, Lanczos3): the
output dimensions come from resize_dimensions and the pixel content is a
resampling of the input (the exact Lanczos kernel is irrelevant to every
claim, so a nearest sample stands in for it). -/
def Img.resize (img : Img) (nwidth nheight : Nat) : Img :=
  let dims := resize_dimensions img.width img.height nwidth nheight
  { width := dims.1, height := dims.2,
    pixel := fun x y => img.pixel (x * img.width / dims.1) (y * img.height / dims.2) }

/-- Errors of the transform and cache pipeline, flattening the Rust
ImageError and the io::Error it wraps: an io failure, a decode failure
(corrupt or unsupported format), or the distinct unsupported-orientation
error built in cache.rs lines 58-68. -/
inductive ImgError
  | ioFailure
  | decodeFailure
  | unsupportedOrientation (value : Nat)
deriving DecidableEq

/-- Modelled from extract_exif_orientation (cache.rs lines 77-87): read
the orientation tag of the primary image file directory and default to 1
when the EXIF data is absent or unreadable (the unwrap_or(1)). -/
def extract_exif_orientation (buffer : Buffer) : Nat :=
  buffer.exifOrientation.getD 1

/-- Modelled from the orientation match inside load_and_resize
(cache.rs lines 49-69), factored as a named function: values 0 and 1 are
the identity, 2 through 8 are the geometric transforms written there,
and any other value is the unsupported-orientation error. -/
def apply_orientation (orientation : Nat) (resized_image : Img) : Except ImgError Img :=
  match orientation with
  | 0 => .ok resized_image
  | 1 => .ok resized_image
  | 2 => .ok resized_image.fliph
  | 3 => .ok resized_image.rotate180
  | 4 => .ok resized_image.flipv
  | 5 => .ok (resized_image.rotate90.fliph)
  | 6 => .ok resized_image.rotate90
  | 7 => .ok (resized_image.rotate270.fliph)
  | 8 => .ok resized_image.rotate270
  | value => .error (.unsupportedOrientation value)

/-- Modelled from load_and_resize in cache.rs (lines 40-75): extract the
EXIF orientation, decode, resize to fit max_size in both directions,
apply the orientation transform to the resized image, and encode at the
configured quality. -/
def Cache.load_and_resize (buffer : Buffer) (max_size jpeg_image_quality : Nat) :
    Except ImgError (List Nat) :=
  let orientation := extract_exif_orientation buffer
  match decode buffer with
  | none => .error .decodeFailure
  | some image =>
    (apply_orientation orientation (image.resize max_size max_size)).map
      (encode jpeg_image_quality)

/-- Modelled from the spec's own words, for comparison with the code:
the standard 8-value EXIF orientation table, 1 or 0 identity, 2
flip-horizontal, 3 rotate-180, 4 flip-vertical, 5
rotate-90-then-flip-horizontal, 6 rotate-90, 7
rotate-270-then-flip-horizontal, 8 rotate-270, and no result for any
other value. -/
def specOrientationTransform (orientation : Nat) (img : Img) : Option Img :=
  match orientation with
  | 0 => some img
  | 1 => some img
  | 2 => some img.fliph
  | 3 => some img.rotate180
  | 4 => some img.flipv
  | 5 => some (img.rotate90.fliph)
  | 6 => some img.rotate90
  | 7 => some (img.rotate270.fliph)
  | 8 => some img.rotate270
  | _ => none

/-- The filesystem as the cache and storage roots see it: a map from
paths to the contents of the file there, none when no file exists at
that path. -/
abbrev Fs := String → Option Buffer

/-- One file write: after it, the path holds exactly the given bytes. -/
def Fs.write (fs : Fs) (path : String) (buffer : Buffer) : Fs :=
  fun p => if p = path then some buffer else fs p

/-- Path join as PathBuf::join behaves on the relative paths the router
hands over. -/
def joinPath (root relative : String) : String := root ++ "/" ++ relative

/-- Modelled from the Configuration struct plus the two pipeline
parameters images.rs and upload.rs read from it. -/
structure Configuration where
  storage : String
  cache : String
  max_cached_image_size : Nat
  jpeg_image_quality : Nat

/-- Everything one serve_and_cache call produces: the response, the
filesystem it leaves behind, how many decode-resize-encode transform
invocations it performed (the spawn_blocking closures that ran), and how
many times it opened the source file. -/
structure ServeOutcome where
  response : Except ImgError Buffer
  fs : Fs
  transforms : Nat
  source_reads : Nat

/-- Modelled from load_and_resize in images.rs (lines 86-115): open the
source under the storage root, decode, resize to fit max_size, encode at
the configured quality; this serving-path variant reads no EXIF data.
Returns the result together with the number of transform invocations
performed. -/
def Images.load_and_resize (fs : Fs) (file_path storage : String)
    (max_size jpeg_image_quality : Nat) : Except ImgError Buffer × Nat :=
  match fs (joinPath storage file_path) with
  | none => (.error .ioFailure, 0)
  | some buffer =>
    match decode buffer with
    | none => (.error .decodeFailure, 1)
    | some image =>
      (.ok ⟨encode jpeg_image_quality (image.resize max_size max_size), none⟩, 1)

/-- Modelled from serve_and_cache in images.rs (lines 21-51): when a
file already exists at the cache path, read it and return its bytes
unchanged; otherwise build the thumbnail from the source, write it to
the cache path and return it. -/
def Images.serve_and_cache (configuration : Configuration) (fs : Fs)
    (file_path : String) : ServeOutcome :=
  let cache_path := joinPath configuration.cache file_path
  match fs cache_path with
  | some buffer => ⟨.ok buffer, fs, 0, 0⟩
  | none =>
    match Images.load_and_resize fs file_path configuration.storage
        configuration.max_cached_image_size configuration.jpeg_image_quality with
    | (.error e, n) => ⟨.error e, fs, n, 1⟩
    | (.ok image, n) => ⟨.ok image, Fs.write fs cache_path image, n, 1⟩

/-- Everything one cache_image call produces, mirroring ServeOutcome for
the unit-returning builder in cache.rs. -/
structure CacheOutcome where
  outcome : Except ImgError Unit
  fs : Fs
  transforms : Nat

/-- Modelled from cache_image in cache.rs (lines 15-38): return at once
when the destination exists, otherwise read the source, run the
EXIF-aware transform off the scheduling path, and write the result to
the destination. -/
def Cache.cache_image (fs : Fs) (source destination : String)
    (max_size jpeg_image_quality : Nat) : CacheOutcome :=
  match fs destination with
  | some _ => ⟨.ok (), fs, 0⟩
  | none =>
    match fs source with
    | none => ⟨.error .ioFailure, fs, 0⟩
    | some buffer =>
      match Cache.load_and_resize buffer max_size jpeg_image_quality with
      | .error e => ⟨.error e, fs, 1⟩
      | .ok encoded_image => ⟨.ok (), Fs.write fs destination ⟨encoded_image, none⟩, 1⟩

/-- Modelled from the Image struct of index.rs (lines 35-39): a relative
path and a modification time. -/
structure Image where
  path : String
  modified : Nat
deriving DecidableEq

/-- Modelled from the manual PartialEq and Hash impls of Image
(index.rs lines 41-51): identity compares only the path and ignores the
modification time. -/
def Image.eqv (a b : Image) : Bool := a.path == b.path

/-- Membership in a scanned set of images under the path-only identity,
as the HashSet of index.rs resolves it. -/
def hsMem (s : List Image) (img : Image) : Bool :=
  s.any fun o => Image.eqv o img

/-- Set difference under the path-only identity, as
HashSet::difference computes it in detect_updates. -/
def hsDifference (a b : List Image) : List Image :=
  a.filter fun img => !hsMem b img

/-- Modelled from the Updates struct of index.rs (lines 111-115). -/
structure Updates where
  additions : List Image
  deletions : List Image
deriving DecidableEq

/-- Modelled from detect_updates (index.rs lines 117-124): additions are
the new set minus the old, deletions the old set minus the new, both
under the path-only identity. -/
def detect_updates (old new : List Image) : Updates :=
  { additions := hsDifference new old, deletions := hsDifference old new }

/-- Outcome of one collect_images scan (index.rs lines 126-161): the
scanned set, or the IndexError a failed directory walk or metadata read
propagates with the question-mark operator. -/
inductive ScanOutcome
  | ok (images : List Image)
  | ioError
deriving DecidableEq

/-- State of the spawned indexer task: holding a set of images while
waiting in its select loop, or dead because an unwrap panicked the
task. -/
inductive ActorState
  | idle (images : List Image)
  | crashed
deriving DecidableEq

/-- Modelled from the notifier arm of the select loop in Indexer::spawn
(index.rs lines 87-94): rescan, diff against the held set, broadcast the
diff when it is nonempty, and hold the new set. The unwrap on the
collect_images result (line 88) panics the task when the scan fails,
modelled as the crashed state; a crashed task takes no further step. -/
def notifyStep (state : ActorState) (scan : ScanOutcome) : ActorState × Option Updates :=
  match state with
  | .crashed => (.crashed, none)
  | .idle images =>
    match scan with
    | .ioError => (.crashed, none)
    | .ok new_images =>
      let updates := detect_updates images new_images
      if !updates.additions.isEmpty || !updates.deletions.isEmpty then
        (.idle new_images, some updates)
      else
        (.idle new_images, none)

/-- Modelled from the snapshot arm of the select loop (index.rs lines
84-86): an idle task answers with its held set; a crashed task never
answers, its receiver having been dropped. -/
def snapshotStep (state : ActorState) : Option (List Image) :=
  match state with
  | .idle images => some images
  | .crashed => none

/-- Messages the spawned indexer task accepts: its command channel is an
mpsc of oneshot response senders (index.rs line 55), so the only command
is a snapshot request; the interface has no insert command. -/
inductive IndexerCommand
  | getSnapshot
deriving DecidableEq

/-- Modelled from upload_image in upload.rs (lines 30-59): resize the
uploaded file, write the thumbnail to the cache path, copy the original
to the storage path. The upload path touches only the filesystem; it
sends nothing to the indexer task. -/
def upload_image (configuration : Configuration) (fs : Fs) (file_name : String)
    (uploaded : Buffer) : Except ImgError Fs :=
  let storage_path := joinPath configuration.storage file_name
  let cache_path := joinPath configuration.cache file_name
  match decode uploaded with
  | none => .error .decodeFailure
  | some image =>
    let resized_image := encode configuration.jpeg_image_quality
      (image.resize configuration.max_cached_image_size configuration.max_cached_image_size)
    .ok ((Fs.write (Fs.write fs cache_path ⟨resized_image, none⟩) storage_path uploaded))

/-- Phase of one in-flight serve_and_cache request when several run
concurrently for the same path: before the cache-existence check, past a
missed check and about to build, or finished with a response. -/
inductive CallerPhase
  | start
  | building
  | done (response : Except ImgError Buffer)

/-- Shared state of several concurrent serve_and_cache requests: the
filesystem, each caller's phase, and the total number of transform
invocations performed so far. -/
structure RaceState where
  fs : Fs
  callers : List CallerPhase
  transforms : Nat

/-- Modelled from serve_and_cache (images.rs lines 21-51) split at its
await points into two atomic steps per request: the cache-existence
check and read (lines 27-32), and the build plus write of the result
(lines 34-48). The sources hold no per-path in-flight marker or lock, so
nothing orders the steps of distinct callers. -/
def raceStep (configuration : Configuration) (file_path : String) (s : RaceState)
    (i : Nat) : RaceState :=
  match s.callers[i]? with
  | none => s
  | some .start =>
    match s.fs (joinPath configuration.cache file_path) with
    | some buffer => { s with callers := s.callers.set i (.done (.ok buffer)) }
    | none => { s with callers := s.callers.set i .building }
  | some .building =>
    match Images.load_and_resize s.fs file_path configuration.storage
        configuration.max_cached_image_size configuration.jpeg_image_quality with
    | (.error e, n) =>
      { fs := s.fs, callers := s.callers.set i (.done (.error e)),
        transforms := s.transforms + n }
    | (.ok image, n) =>
      { fs := Fs.write s.fs (joinPath configuration.cache file_path) image,
        callers := s.callers.set i (.done (.ok image)),
        transforms := s.transforms + n }
  | some (.done _) => s

/-- Run the concurrent callers under an explicit interleaving: the
schedule lists which caller takes the next atomic step. -/
def runRace (configuration : Configuration) (file_path : String) :
    RaceState → List Nat → RaceState
  | s, [] => s
  | s, i :: rest => runRace configuration file_path (raceStep configuration file_path s i) rest

/-- Modelled from the miss path of serve_and_cache (images.rs line 43):
File::create makes an empty file appear at the destination path before
any content is written. -/
def createFile (fs : Fs) (path : String) : Fs := Fs.write fs path ⟨[], none⟩

/-- Modelled from the miss path of serve_and_cache (images.rs lines
44-48): write_all then fills the already-visible destination file with
the encoded bytes. -/
def write_all (fs : Fs) (path : String) (buffer : Buffer) : Fs := Fs.write fs path buffer

/-- Concrete configuration for the witnesses: tiny thumbnails keep the
evaluations small. -/
def cfgW : Configuration := ⟨"s", "c", 1, 80⟩

/-- Concrete decodable one-pixel file for the witnesses. -/
def bufW : Buffer := ⟨[1, 1, 7], none⟩

/-- The empty filesystem. -/
def fsEmpty : Fs := fun _ => none

/-- Filesystem holding only the source file of the witnesses. -/
def fsSrc : Fs := Fs.write fsEmpty "s/a" bufW

/-- Filesystem holding only an already-cached thumbnail. -/
def fsHit : Fs := Fs.write fsEmpty "c/a" bufW

/-- Initial state of two concurrent requests for the same uncached
destination. -/
def raceInit : RaceState := ⟨fsSrc, [.start, .start], 0⟩

/-- The one-pixel image the witness buffer decodes to. -/
def imgW : Img := ⟨1, 1, fun x y => [7].getD (y * 1 + x) 0⟩

/-- A three-by-two image for the resize witness. -/
def imgNine : Img := ⟨3, 2, fun _ _ => 0⟩

/-- Concrete decodable input with EXIF orientation 9 for the corrected
orientation claim. -/
def bufC4 : Buffer := ⟨[1, 1, 7], some 9⟩

/-- Concrete decodable input with EXIF orientation 6 for the orientation
table claim. -/
def bufC5 : Buffer := ⟨[1, 1, 7], some 6⟩

theorem Fs.write_same (fs : Fs) (path : String) (buffer : Buffer) :
    Fs.write fs path buffer path = some buffer := by
  simp [Fs.write]

/-- C2: the spec requires that a failed rescan not crash the actor, that
the previous Index be retained and that the actor return to Idle so
snapshots are still served. The code instead unwraps the scan result:
with the Index holding one image, the very first failing scan moves the
task to the crashed state, broadcasts nothing, and a crashed task
answers no snapshot request, while before the failure a snapshot was
served. -/
theorem scan_failure_crashes_actor :
    notifyStep (.idle [⟨"a.jpg", 0⟩]) .ioError = (.crashed, none) ∧
    snapshotStep (.idle [⟨"a.jpg", 0⟩]) = some [⟨"a.jpg", 0⟩] ∧
    snapshotStep .crashed = none :=
  ⟨rfl, rfl, rfl⟩

/-- C3: the spec requires an insert operation on the Index Actor so an
uploaded file is visible immediately. In the code the indexer task
accepts only snapshot requests, a successful upload touches only the
filesystem, and the snapshot served right after the upload is the
unchanged previous set, which does not contain the uploaded file. -/
theorem upload_not_visible_without_rescan :
    (∀ command : IndexerCommand, command = .getSnapshot) ∧
    (upload_image cfgW fsEmpty "u.jpg" ⟨[1, 1, 7], none⟩).isOk = true ∧
    snapshotStep (.idle []) = some [] ∧
    ([] : List Image).all (fun img => img.path != "u.jpg") = true := by
  refine ⟨fun command => ?_, rfl, rfl, rfl⟩
  cases command
  rfl

/-- C1: the spec requires that concurrent build-or-fetch calls for the
same uncached destination perform exactly one transform invocation. The
code has no per-path in-flight marker: with two concurrent callers for
the same uncached path, the interleaving in which both run their
cache-existence check before either builds performs two transform
invocations, while the sequential interleaving performs one. -/
theorem concurrent_build_duplicates_transform :
    (runRace cfgW "a" raceInit [0, 1, 0, 1]).transforms = 2 ∧
    (runRace cfgW "a" raceInit [0, 0, 1, 1]).transforms = 1 ∧
    (runRace cfgW "a" raceInit [0, 1, 0, 1]).callers
      = [.done (.ok ⟨[80, 1, 1, 7], none⟩), .done (.ok ⟨[80, 1, 1, 7], none⟩)] :=
  ⟨rfl, rfl, rfl⟩

/-- C8: the spec requires the thumbnail write to be atomic for readers,
via a temporary path and a rename or equivalent. The code creates the
destination file and then writes into it directly: a reader running
serve_and_cache between the create and the write finds the destination
present, takes the cache-hit path, and returns the empty partial file
instead of the bytes the writer is about to produce. -/
theorem nonatomic_write_observed :
    (Images.load_and_resize fsSrc "a" cfgW.storage cfgW.max_cached_image_size
      cfgW.jpeg_image_quality).1 = .ok ⟨[80, 1, 1, 7], none⟩ ∧
    (Images.serve_and_cache cfgW (createFile fsSrc (joinPath cfgW.cache "a")) "a").response
      = .ok ⟨[], none⟩ ∧
    (Images.serve_and_cache cfgW
        (write_all (createFile fsSrc (joinPath cfgW.cache "a")) (joinPath cfgW.cache "a")
          ⟨[80, 1, 1, 7], none⟩) "a").response = .ok ⟨[80, 1, 1, 7], none⟩ ∧
    (⟨[], none⟩ : Buffer) ≠ ⟨[80, 1, 1, 7], none⟩ :=
  ⟨rfl, rfl, rfl, by decide⟩

/-- C4, counterexample: the claim says EXIF orientation 0 yields the
unsupported-orientation error, but on a decodable one-pixel input with
orientation 0 the transform succeeds and produces thumbnail bytes. -/
theorem orientation_zero_produces_bytes :
    extract_exif_orientation ⟨[1, 1, 7], some 0⟩ = 0 ∧
    (Cache.load_and_resize ⟨[1, 1, 7], some 0⟩ 1 80).isOk = true :=
  ⟨rfl, rfl⟩

theorem apply_orientation_ge9 (value : Nat) (img : Img) (h : 9 ≤ value) :
    apply_orientation value img = .error (.unsupportedOrientation value) := by
  obtain ⟨k, rfl⟩ : ∃ k, value = k + 9 := ⟨value - 9, by omega⟩
  rfl

theorem specOrientationTransform_ge9 (value : Nat) (img : Img) (h : 9 ≤ value) :
    specOrientationTransform value img = none := by
  obtain ⟨k, rfl⟩ : ∃ k, value = k + 9 := ⟨value - 9, by omega⟩
  rfl

theorem cache_load_eq (buffer : Buffer) (img : Img) (max_size jpeg_image_quality : Nat)
    (hdec : decode buffer = some img) :
    Cache.load_and_resize buffer max_size jpeg_image_quality
      = (apply_orientation (extract_exif_orientation buffer)
          (img.resize max_size max_size)).map (encode jpeg_image_quality) := by
  simp only [Cache.load_and_resize, hdec]

theorem apply_orientation_matches_spec (value : Nat) (resized : Img)
    (jpeg_image_quality : Nat) :
    (apply_orientation value resized).map (encode jpeg_image_quality)
      = (specOrientationTransform value resized).elim
          (Except.error (ImgError.unsupportedOrientation value))
          (fun transformed => Except.ok (encode jpeg_image_quality transformed)) := by
  rcases Nat.lt_or_ge value 9 with h | h
  · interval_cases value <;> rfl
  · rw [apply_orientation_ge9 value resized h, specOrientationTransform_ge9 value resized h]
    rfl

/-- C4, amended: for every decodable input whose EXIF orientation value
is at least 9, the transform engine returns the distinct
unsupported-orientation error carrying that value (so no thumbnail bytes
are produced); orientation 0, contrary to the original claim, is treated
as the identity like orientation 1 and is not an error. -/
theorem orientation_ge9_unsupported (buffer : Buffer) (img : Img)
    (max_size jpeg_image_quality : Nat) (hdec : decode buffer = some img)
    (h9 : 9 ≤ extract_exif_orientation buffer) :
    Cache.load_and_resize buffer max_size jpeg_image_quality
      = .error (.unsupportedOrientation (extract_exif_orientation buffer)) := by
  rw [cache_load_eq buffer img max_size jpeg_image_quality hdec,
    apply_orientation_ge9 _ _ h9]
  rfl

/-- Witness for the amended orientation claim at a concrete one-pixel
input carrying orientation 9. -/
theorem orientation_ge9_unsupported_witness :
    decode bufC4 = some imgW ∧ 9 ≤ extract_exif_orientation bufC4 ∧
    Cache.load_and_resize bufC4 1 80
      = .error (.unsupportedOrientation (extract_exif_orientation bufC4)) :=
  ⟨rfl, by decide, orientation_ge9_unsupported bufC4 imgW 1 80 rfl (by decide)⟩

/-- C5: for every decodable input, the transform pipeline equals the
spec's 8-value EXIF orientation table applied to the already-resized
image (identity for 1 and 0, flip-horizontal for 2, rotate-180 for 3,
flip-vertical for 4, rotate-90-then-flip-horizontal for 5, rotate-90 for
6, rotate-270-then-flip-horizontal for 7, rotate-270 for 8), followed by
encoding, and the orientation used defaults to 1 whenever the EXIF tag
is absent or unreadable. -/
theorem transform_matches_spec_table (buffer : Buffer) (img : Img)
    (max_size jpeg_image_quality : Nat) (hdec : decode buffer = some img) :
    Cache.load_and_resize buffer max_size jpeg_image_quality
      = (specOrientationTransform (extract_exif_orientation buffer)
          (img.resize max_size max_size)).elim
          (Except.error (ImgError.unsupportedOrientation (extract_exif_orientation buffer)))
          (fun transformed => Except.ok (encode jpeg_image_quality transformed)) ∧
    (buffer.exifOrientation = none → extract_exif_orientation buffer = 1) := by
  constructor
  · rw [cache_load_eq buffer img max_size jpeg_image_quality hdec,
      apply_orientation_matches_spec]
  · intro hnone
    simp [extract_exif_orientation, hnone]

/-- Witness for the orientation table claim at a concrete one-pixel
input carrying orientation 6. -/
theorem transform_matches_spec_table_witness :
    decode bufC5 = some imgW ∧
    (Cache.load_and_resize bufC5 1 80
      = (specOrientationTransform (extract_exif_orientation bufC5)
          (imgW.resize 1 1)).elim
          (Except.error (ImgError.unsupportedOrientation (extract_exif_orientation bufC5)))
          (fun transformed => Except.ok (encode 80 transformed)) ∧
      (bufC5.exifOrientation = none → extract_exif_orientation bufC5 = 1)) :=
  ⟨rfl, transform_matches_spec_table bufC5 imgW 1 80 rfl⟩

/-- C6: for every pair of consecutive index snapshots, the computed
Update's additions are exactly the members of the new snapshot whose
path occurs in no member of the old one, its deletions are exactly the
members of the old snapshot whose path occurs in no member of the new
one, and the rescan step never broadcasts an Update whose additions and
deletions are both empty. -/
theorem detect_updates_spec (old new : List Image) :
    (∀ img, img ∈ (detect_updates old new).additions ↔
      img ∈ new ∧ ∀ o ∈ old, o.path ≠ img.path) ∧
    (∀ img, img ∈ (detect_updates old new).deletions ↔
      img ∈ old ∧ ∀ o ∈ new, o.path ≠ img.path) ∧
    (notifyStep (.idle old) (.ok new)).2 ≠ some ⟨[], []⟩ := by
  refine ⟨fun img => ?_, fun img => ?_, ?_⟩
  · simp [detect_updates, hsDifference, hsMem, Image.eqv, List.mem_filter]
  · simp [detect_updates, hsDifference, hsMem, Image.eqv, List.mem_filter]
  · simp only [notifyStep]
    split
    case isTrue hc =>
      intro hcontra
      rw [Option.some_inj] at hcontra
      rw [hcontra] at hc
      simp at hc
    case isFalse hc =>
      simp

/-- Witness for the update computation at concrete snapshots: one image
added yields a broadcast carrying exactly that addition, and identical
snapshots yield no broadcast. -/
theorem detect_updates_spec_witness :
    detect_updates [⟨"a.jpg", 0⟩] [⟨"a.jpg", 0⟩, ⟨"b.jpg", 1⟩]
      = ⟨[⟨"b.jpg", 1⟩], []⟩ ∧
    (notifyStep (.idle [⟨"a.jpg", 0⟩]) (.ok [⟨"a.jpg", 0⟩, ⟨"b.jpg", 1⟩])).2
      = some ⟨[⟨"b.jpg", 1⟩], []⟩ ∧
    (notifyStep (.idle [⟨"a.jpg", 0⟩]) (.ok [⟨"a.jpg", 0⟩])).2 = none := by
  refine ⟨by decide, by decide, by decide⟩

/-- C7: when a file already exists at the destination path, a
serve_and_cache call returns exactly its bytes, leaves the filesystem
untouched, performs no transform work and never opens the source, and a
cache_image call likewise returns at once; consequently a successful
call followed by a second call on the resulting filesystem returns the
same bytes with no transform work. -/
theorem serve_cache_hit_idempotent (configuration : Configuration) (fs : Fs)
    (file_path source destination : String) (max_size jpeg_image_quality : Nat) :
    (∀ buffer, fs (joinPath configuration.cache file_path) = some buffer →
      Images.serve_and_cache configuration fs file_path = ⟨.ok buffer, fs, 0, 0⟩) ∧
    (∀ buffer, fs destination = some buffer →
      Cache.cache_image fs source destination max_size jpeg_image_quality
        = ⟨.ok (), fs, 0⟩) ∧
    (∀ buffer, (Images.serve_and_cache configuration fs file_path).response = .ok buffer →
      (Images.serve_and_cache configuration
          (Images.serve_and_cache configuration fs file_path).fs file_path).response
        = .ok buffer ∧
      (Images.serve_and_cache configuration
          (Images.serve_and_cache configuration fs file_path).fs file_path).transforms
        = 0) := by
  refine ⟨fun buffer h => ?_, fun buffer h => ?_, fun buffer hresp => ?_⟩
  · simp [Images.serve_and_cache, h]
  · simp [Cache.cache_image, h]
  · rcases hcache : fs (joinPath configuration.cache file_path) with _ | b
    · rcases hload : Images.load_and_resize fs file_path configuration.storage
          configuration.max_cached_image_size configuration.jpeg_image_quality with ⟨res, n⟩
      rcases res with e | image
      · simp [Images.serve_and_cache, hcache, hload] at hresp
      · have hserve : Images.serve_and_cache configuration fs file_path
            = ⟨.ok image, Fs.write fs (joinPath configuration.cache file_path) image,
                n, 1⟩ := by
          simp [Images.serve_and_cache, hcache, hload]
        rw [hserve] at hresp ⊢
        simp only at hresp
        injection hresp with h
        subst h
        constructor
        · simp [Images.serve_and_cache, Fs.write_same]
        · simp [Images.serve_and_cache, Fs.write_same]
    · have hserve : Images.serve_and_cache configuration fs file_path
          = ⟨.ok b, fs, 0, 0⟩ := by
        simp [Images.serve_and_cache, hcache]
      rw [hserve] at hresp ⊢
      simp only at hresp
      injection hresp with h
      subst h
      constructor <;> simp [Images.serve_and_cache, hcache]

/-- Witness for the cache-hit claim at a concrete filesystem holding an
already-built thumbnail. -/
theorem serve_cache_hit_idempotent_witness :
    fsHit (joinPath cfgW.cache "a") = some bufW ∧
    Images.serve_and_cache cfgW fsHit "a" = ⟨.ok bufW, fsHit, 0, 0⟩ :=
  ⟨rfl, (serve_cache_hit_idempotent cfgW fsHit "a" "s/a" "c/a" 1 80).1 bufW rfl⟩

/-- C10: image identity in the index compares only the relative path and
ignores the modification time, so for two snapshots carrying the same
set of paths the computed Update is empty in both directions and the
rescan step broadcasts nothing, even when every modification time
changed. -/
theorem image_identity_ignores_mtime (old new : List Image)
    (hold : ∀ img ∈ old, hsMem new img = true)
    (hnew : ∀ img ∈ new, hsMem old img = true) :
    (detect_updates old new).additions = [] ∧
    (detect_updates old new).deletions = [] ∧
    (notifyStep (.idle old) (.ok new)).2 = none ∧
    (∀ a b : Image, Image.eqv a b = true ↔ a.path = b.path) := by
  have hadd : (detect_updates old new).additions = [] := by
    simp only [detect_updates, hsDifference]
    rw [List.filter_eq_nil_iff]
    intro img himg
    simp [hnew img himg]
  have hdel : (detect_updates old new).deletions = [] := by
    simp only [detect_updates, hsDifference]
    rw [List.filter_eq_nil_iff]
    intro img himg
    simp [hold img himg]
  refine ⟨hadd, hdel, ?_, fun a b => ?_⟩
  · simp [notifyStep, hadd, hdel]
  · simp [Image.eqv]

/-- Witness for the path-only identity claim at concrete snapshots whose
single image changed only its modification time. -/
theorem image_identity_ignores_mtime_witness :
    (detect_updates [⟨"a.jpg", 0⟩] [⟨"a.jpg", 5⟩]).additions = [] ∧
    (detect_updates [⟨"a.jpg", 0⟩] [⟨"a.jpg", 5⟩]).deletions = [] ∧
    (notifyStep (.idle [⟨"a.jpg", 0⟩]) (.ok [⟨"a.jpg", 5⟩])).2 = none ∧
    (∀ a b : Image, Image.eqv a b = true ↔ a.path = b.path) :=
  image_identity_ignores_mtime [⟨"a.jpg", 0⟩] [⟨"a.jpg", 5⟩] (by decide) (by decide)

theorem roundRatio_le (a b m : Nat) (hb : 0 < b) (hm : 1 ≤ m) (h : a ≤ b * m) :
    max (roundRatio a b) 1 ≤ m := by
  have hdiv : (2 * a + b) / (2 * b) < m + 1 := by
    rw [Nat.div_lt_iff_lt_mul (by omega : 0 < 2 * b)]
    nlinarith
  unfold roundRatio
  exact Nat.max_le.mpr ⟨by omega, hm⟩

theorem roundRatio_close (a b : Nat) (hb : 0 < b) :
    |((max (roundRatio a b) 1 : Nat) : ℚ) - (a : ℚ) / (b : ℚ)| ≤ 1 := by
  unfold roundRatio
  have hdm := Nat.div_add_mod (2 * a + b) (2 * b)
  have hmlt : (2 * a + b) % (2 * b) < 2 * b := Nat.mod_lt _ (by omega)
  set q := (2 * a + b) / (2 * b)
  have h1 : 2 * b * q ≤ 2 * a + b := by omega
  have h2 : 2 * a + b < 2 * b * q + 2 * b := by omega
  have hbq : (0 : ℚ) < (b : ℚ) := by exact_mod_cast hb
  have h1q : 2 * (b : ℚ) * (q : ℚ) ≤ 2 * (a : ℚ) + (b : ℚ) := by exact_mod_cast h1
  have h2q : 2 * (a : ℚ) + (b : ℚ) < 2 * (b : ℚ) * (q : ℚ) + 2 * (b : ℚ) := by
    exact_mod_cast h2
  have hlb : (q : ℚ) - 1 / 2 ≤ (a : ℚ) / (b : ℚ) := by
    rw [le_div_iff₀ hbq]
    nlinarith
  have hub : (a : ℚ) / (b : ℚ) < (q : ℚ) + 1 / 2 := by
    rw [div_lt_iff₀ hbq]
    nlinarith
  have ha0 : (0 : ℚ) ≤ (a : ℚ) / (b : ℚ) :=
    div_nonneg (Nat.cast_nonneg a) (Nat.cast_nonneg b)
  rcases Nat.eq_zero_or_pos q with h0 | h1p
  · rw [h0] at hub ⊢
    have hub2 : (a : ℚ) / (b : ℚ) < 1 / 2 := by simpa using hub
    have hmax : (max 0 1 : Nat) = 1 := rfl
    rw [hmax, abs_le]
    constructor <;> push_cast <;> linarith
  · have hmax : (max q 1 : Nat) = q := Nat.max_eq_left h1p
    rw [hmax, abs_le]
    constructor <;> linarith

/-- C9: for every decoded image (so both dimensions are nonzero) and
every nonzero max_edge, the resize step produces an image both of whose
dimensions are bounded by max_edge (in particular it never upscales past
the bound implied by fitting within max_edge by max_edge), and there is
a single nonnegative scale ratio reproducing both output dimensions from
the input dimensions to within one pixel, so the aspect ratio is
preserved within rounding tolerance. -/
theorem resize_bound (img : Img) (max_edge : Nat)
    (hw : 0 < img.width) (hh : 0 < img.height) (hm : 0 < max_edge) :
    ((img.resize max_edge max_edge).width ≤ max_edge ∧
      (img.resize max_edge max_edge).height ≤ max_edge) ∧
    ∃ r : ℚ, 0 ≤ r ∧
      |((img.resize max_edge max_edge).width : ℚ) - (img.width : ℚ) * r| ≤ 1 ∧
      |((img.resize max_edge max_edge).height : ℚ) - (img.height : ℚ) * r| ≤ 1 := by
  obtain ⟨w, h, pix⟩ := img
  dsimp only [Img.resize, resize_dimensions] at hw hh ⊢
  by_cases hcond : max_edge * h ≤ max_edge * w
  · rw [if_pos hcond]
    dsimp only
    have hhw : h * max_edge ≤ w * max_edge := by
      calc h * max_edge = max_edge * h := Nat.mul_comm h max_edge
        _ ≤ max_edge * w := hcond
        _ = w * max_edge := Nat.mul_comm max_edge w
    refine ⟨⟨roundRatio_le (w * max_edge) w max_edge hw hm (Nat.le_refl _),
      roundRatio_le (h * max_edge) w max_edge hw hm hhw⟩,
      (max_edge : ℚ) / (w : ℚ),
      div_nonneg (Nat.cast_nonneg max_edge) (Nat.cast_nonneg w), ?_, ?_⟩
    · have heq : (w : ℚ) * ((max_edge : ℚ) / (w : ℚ))
          = ((w * max_edge : Nat) : ℚ) / (w : ℚ) := by
        push_cast
        ring
      rw [heq]
      exact roundRatio_close (w * max_edge) w hw
    · have heq : (h : ℚ) * ((max_edge : ℚ) / (w : ℚ))
          = ((h * max_edge : Nat) : ℚ) / (w : ℚ) := by
        push_cast
        ring
      rw [heq]
      exact roundRatio_close (h * max_edge) w hw
  · rw [if_neg hcond]
    dsimp only
    have hwh : w * max_edge ≤ h * max_edge := by
      have hlt : max_edge * w < max_edge * h := Nat.lt_of_not_le hcond
      calc w * max_edge = max_edge * w := Nat.mul_comm w max_edge
        _ ≤ max_edge * h := Nat.le_of_lt hlt
        _ = h * max_edge := Nat.mul_comm max_edge h
    refine ⟨⟨roundRatio_le (w * max_edge) h max_edge hh hm hwh,
      roundRatio_le (h * max_edge) h max_edge hh hm (Nat.le_refl _)⟩,
      (max_edge : ℚ) / (h : ℚ),
      div_nonneg (Nat.cast_nonneg max_edge) (Nat.cast_nonneg h), ?_, ?_⟩
    · have heq : (w : ℚ) * ((max_edge : ℚ) / (h : ℚ))
          = ((w * max_edge : Nat) : ℚ) / (h : ℚ) := by
        push_cast
        ring
      rw [heq]
      exact roundRatio_close (w * max_edge) h hh
    · have heq : (h : ℚ) * ((max_edge : ℚ) / (h : ℚ))
          = ((h * max_edge : Nat) : ℚ) / (h : ℚ) := by
        push_cast
        ring
      rw [heq]
      exact roundRatio_close (h * max_edge) h hh

/-- Witness for the resize bound at a concrete three-by-two image shrunk
to fit within two by two. -/
theorem resize_bound_witness :
    0 < imgNine.width ∧ 0 < imgNine.height ∧
    (((imgNine.resize 2 2).width ≤ 2 ∧ (imgNine.resize 2 2).height ≤ 2) ∧
      ∃ r : ℚ, 0 ≤ r ∧
        |((imgNine.resize 2 2).width : ℚ) - (imgNine.width : ℚ) * r| ≤ 1 ∧
        |((imgNine.resize 2 2).height : ℚ) - (imgNine.height : ℚ) * r| ≤ 1) :=
  ⟨by decide, by decide, resize_bound imgNine 2 (by decide) (by decide) (by decide)⟩

end Moments
